import Mathlib

/-!
Verification development for the Snapie video player repository.

Server side (`server.js`, `db.js`): status-based resolution of a video
record to a gateway URL chain or a placeholder chain, and the HTTP
handlers `GET /api/watch`, `GET /api/embed`, `POST /api/view`.

Client side (`src/main.js`): the playback session state hung off the
Video.js player object (stall counting, gateway failover on stalls and
decode errors, at-most-once view counting).

JavaScript `undefined`/`null` values are modelled with `Option`; JS
truthiness of strings (`undefined`, `null` and `""` are falsy) is made
explicit.  Times are `Int` milliseconds.
-/

namespace Snapie

/-- ASCII lowering of one character (`String.prototype.toLowerCase` on the
ASCII status strings involved). -/
def charLower (c : Char) : Char :=
  if 'A' ≤ c ∧ c ≤ 'Z' then Char.ofNat (c.toNat + 32) else c

/-- `toLowerCase`, character by character. -/
def jsToLower (s : String) : String := ⟨s.data.map charLower⟩

/-- Split a character list at every `'/'` (auxiliary for `jsSplitSlash`). -/
def splitSlashAux : List Char → List (List Char)
  | [] => [[]]
  | x :: xs =>
    match splitSlashAux xs with
    | [] => [[]]
    | h :: t => if x = '/' then [] :: h :: t else (x :: h) :: t

/-- `s.split('/')` of JavaScript: `""` yields `[""]`, adjacent separators
yield empty segments. -/
def jsSplitSlash (s : String) : List String := (splitSlashAux s.data).map (⟨·⟩)

/-- Character-list version of `startsWith`. -/
def listStartsWith : List Char → List Char → Bool
  | _, [] => true
  | [], _ :: _ => false
  | c :: cs, d :: ds => c = d && listStartsWith cs ds

/-- `s.startsWith(p)`. -/
def jsStartsWith (s p : String) : Bool := listStartsWith s.data p.data

/-- Drop the first `n` characters (`replace('ipfs://','')` on a string
that starts with the scheme removes exactly its 7 characters). -/
def jsDrop (s : String) (n : Nat) : String := ⟨s.data.drop n⟩

/-- JS truthiness of an optional string field: `undefined`/`null` and the
empty string are falsy. -/
def strTruthy : Option String → Bool
  | none => false
  | some s => !s.isEmpty

/-- Template-literal interpolation of a possibly-undefined value:
`undefined` stringifies to `"undefined"`. -/
def optTemplate : Option String → String
  | none => "undefined"
  | some s => s

/-- A thrown JavaScript runtime error (e.g. calling a method on
`undefined`), caught by the route handlers' `try`/`catch`. -/
inductive JsError
  | typeError
deriving Repr, DecidableEq

/-- Environment configuration read from `process.env`; each variable may
be unset. -/
structure Config where
  IPFS_GATEWAY : Option String := none
  IPFS_GATEWAY_FALLBACK : Option String := none
  PLACEHOLDER_PROCESSING_CID : Option String := none
  PLACEHOLDER_FAILED_CID : Option String := none
  PLACEHOLDER_DELETED_CID : Option String := none
  DEFAULT_THUMBNAIL_CID : Option String := none
deriving Repr, DecidableEq

/-- A MongoDB document from either the legacy `videos` collection or the
`embed-video` collection (fields are optional, as in any document). -/
structure VDoc where
  owner : String
  permlink : String
  status : Option String := none
  video_v2 : Option String := none
  manifest_cid : Option String := none
  views : Option Nat := none
  thumbnail : Option String := none
deriving Repr, DecidableEq

/-- `VIDEO_STATUS` constants from `server.js`. -/
def VIDEO_STATUS_DELETE : String := "delete"

def VIDEO_STATUS_DELETED : String := "deleted"

def VIDEO_STATUS_SELF_DELETED : String := "self_deleted"

def VIDEO_STATUS_ENCODING_IPFS : String := "encoding_ipfs"

def VIDEO_STATUS_IPFS_PINNING : String := "ipfs_pinning"

def VIDEO_STATUS_UPLOADED : String := "uploaded"

def VIDEO_STATUS_ENCODING_FAILED : String := "encoding_failed"

def VIDEO_STATUS_PUBLISH_LATER : String := "publish_later"

def VIDEO_STATUS_PUBLISH_MANUAL : String := "publish_manual"

def VIDEO_STATUS_PUBLISHED : String := "published"

def VIDEO_STATUS_SCHEDULED : String := "scheduled"

/-- `PLACEHOLDER_TYPE` constants from `server.js`. -/
inductive PlaceholderType
  | processing
  | failed
  | deleted
deriving Repr, DecidableEq

/-- `video.status?.toLowerCase() || ''`. -/
def statusLower (status : Option String) : String :=
  (status.map jsToLower).getD ""

/-- `parseVideoParams` from `server.js`: validate the `v` query parameter
and destructure the first two `/`-separated segments. -/
def parseVideoParams (videoParam : Option String) : Except String (String × String) :=
  match videoParam with
  | none => .error "Missing video parameter (v)"
  | some s =>
    if s.isEmpty then .error "Missing video parameter (v)"
    else
      let parts := jsSplitSlash s
      let owner := parts.getD 0 ""
      let permlink := parts.getD 1 ""
      if owner.isEmpty || permlink.isEmpty then
        .error "Invalid video format. Expected: owner/permlink"
      else
        .ok (owner, permlink)

/-- The four-slot URL object returned by `getVideoUrls` /
`createPlaceholderUrls`. -/
structure VideoUrls where
  primary : String
  fallback1 : String
  fallback2 : String
  fallback3 : String
deriving Repr, DecidableEq

/-- The chain read positionally (primary first). -/
def VideoUrls.toList (u : VideoUrls) : List String :=
  [u.primary, u.fallback1, u.fallback2, u.fallback3]

/-- `createPlaceholderUrls`: every slot is the same placeholder URL. -/
def createPlaceholderUrls (placeholderUrl : String) : VideoUrls :=
  { primary := placeholderUrl
    fallback1 := placeholderUrl
    fallback2 := placeholderUrl
    fallback3 := placeholderUrl }

/-- `transformIPFSUrl` on a known-present string argument (the `useFallback`
branch picks the gateway variable; `ipfs://` is stripped and the remaining
path appended).  JS `replace('ipfs://','')` removes the first occurrence,
which for a string starting with the scheme is `String.drop 7`. -/
def transformIPFSUrlStr (cfg : Config) (useFallback : Bool) (ipfsUrl : String) : String :=
  let gateway := if useFallback then cfg.IPFS_GATEWAY_FALLBACK else cfg.IPFS_GATEWAY
  if jsStartsWith ipfsUrl "ipfs://" then
    let cidPath := jsDrop ipfsUrl 7
    optTemplate gateway ++ "/" ++ cidPath
  else
    ipfsUrl

/-- `transformIPFSUrl` as called on possibly-undefined environment values:
calling `.startsWith` on `undefined` throws a `TypeError`. -/
def transformIPFSUrl (cfg : Config) (ipfsUrl : Option String) : Except JsError String :=
  match ipfsUrl with
  | none => .error .typeError
  | some u => .ok (transformIPFSUrlStr cfg false u)

/-- The hard-coded gateway bases of `getVideoUrls` (CDN-first order). -/
def gatewayCdn : String := "https://ipfs-3speak.b-cdn.net/ipfs"

def gatewaySupernode : String := "https://ipfs.3speak.tv/ipfs"

def gatewayHotnode : String := "https://hotipfs-1.3speak.tv/ipfs"

def gatewayAudionode : String := "https://ipfs-audio.3speak.tv/ipfs"

/-- `getVideoUrls` from `server.js`: a content-addressed URI is expanded
across the four configured gateways; any other URI fills all four slots
unchanged. -/
def getVideoUrls (ipfsUrl : String) : VideoUrls :=
  if jsStartsWith ipfsUrl "ipfs://" then
    let cidPath := jsDrop ipfsUrl 7
    { primary := gatewayCdn ++ "/" ++ cidPath
      fallback1 := gatewaySupernode ++ "/" ++ cidPath
      fallback2 := gatewayHotnode ++ "/" ++ cidPath
      fallback3 := gatewayAudionode ++ "/" ++ cidPath }
  else
    { primary := ipfsUrl
      fallback1 := ipfsUrl
      fallback2 := ipfsUrl
      fallback3 := ipfsUrl }

/-- `getPlaceholderVideo` from `server.js`, called with one of the
`PLACEHOLDER_TYPE` constants (never the legacy `'uploading'` literal, and
never `undefined`, at any call site), so the `default: null` branch is
unreachable and the matching environment CID is transformed. -/
def getPlaceholderVideo (cfg : Config) (placeholderType : PlaceholderType) :
    Except JsError String :=
  match placeholderType with
  | .processing => transformIPFSUrl cfg cfg.PLACEHOLDER_PROCESSING_CID
  | .failed => transformIPFSUrl cfg cfg.PLACEHOLDER_FAILED_CID
  | .deleted => transformIPFSUrl cfg cfg.PLACEHOLDER_DELETED_CID

/-- The value a status resolver produces: either a URL chain with the
`isPlaceholder` flag, or an `{error, status}` object echoing the raw
status. -/
inductive ResolveOutcome
  | success (urls : VideoUrls) (isPlaceholder : Bool)
  | failure (error : String) (status : Option String)
deriving Repr, DecidableEq

/-- Shared placeholder branch body of the legacy resolver: transform the
category's configured CID (propagating a thrown `TypeError`), fail with
the configuration error when the result is falsy, else build the
placeholder chain. -/
def placeholderBranch (cfg : Config) (pt : PlaceholderType) (video : VDoc) :
    Except JsError ResolveOutcome :=
  match getPlaceholderVideo cfg pt with
  | .error e => .error e
  | .ok placeholderUrl =>
    if placeholderUrl.isEmpty then
      .ok (.failure "Placeholder configuration error" video.status)
    else
      .ok (.success (createPlaceholderUrls placeholderUrl) true)

/-- `getVideoUrlsForLegacyStatus` from `server.js`. -/
def getVideoUrlsForLegacyStatus (cfg : Config) (video : VDoc) :
    Except JsError ResolveOutcome :=
  let status := statusLower video.status
  if status ∈ [VIDEO_STATUS_DELETE, VIDEO_STATUS_DELETED, VIDEO_STATUS_SELF_DELETED] then
    placeholderBranch cfg .deleted video
  else if status ∈ [VIDEO_STATUS_ENCODING_IPFS, VIDEO_STATUS_IPFS_PINNING,
      VIDEO_STATUS_UPLOADED] then
    placeholderBranch cfg .processing video
  else if status ∈ [VIDEO_STATUS_ENCODING_FAILED, "failed"] then
    placeholderBranch cfg .failed video
  else if status ∈ [VIDEO_STATUS_PUBLISH_LATER, VIDEO_STATUS_PUBLISH_MANUAL,
      VIDEO_STATUS_PUBLISHED, VIDEO_STATUS_SCHEDULED] then
    if !strTruthy video.video_v2 then
      .ok (.failure "Video source not available" video.status)
    else
      .ok (.success (getVideoUrls (video.video_v2.getD "")) false)
  else
    .ok (.failure "Video source not available" video.status)

/-- `getVideoUrlsForEmbedStatus` from `server.js`. -/
def getVideoUrlsForEmbedStatus (cfg : Config) (video : VDoc) :
    Except JsError ResolveOutcome :=
  let status := statusLower video.status
  if status = VIDEO_STATUS_PUBLISHED ∧ strTruthy video.manifest_cid then
    .ok (.success
      (getVideoUrls ("ipfs://" ++ video.manifest_cid.getD "" ++ "/manifest.m3u8")) false)
  else
    let placeholderType : Option PlaceholderType :=
      if status ∈ [VIDEO_STATUS_DELETE, VIDEO_STATUS_DELETED, VIDEO_STATUS_SELF_DELETED] then
        some .deleted
      else if status ∈ [VIDEO_STATUS_ENCODING_IPFS, VIDEO_STATUS_IPFS_PINNING,
          VIDEO_STATUS_UPLOADED] then
        some .processing
      else if status = "uploading" ∨ status = "processing" ∨ status = "finalizing" then
        some .processing
      else if status ∈ [VIDEO_STATUS_ENCODING_FAILED, "failed"] then
        some .failed
      else
        none
    match placeholderType with
    | none => .ok (.failure "Video not ready" video.status)
    | some pt => placeholderBranch cfg pt video

/-! ### Database operations (`db.js`)

A collection is a list of documents; `findOne` returns the first match
and `updateOne` rewrites the first match, reporting whether a document
was modified (`modifiedCount > 0`). -/

/-- `findOne({owner, permlink})`. -/
def findOne (owner permlink : String) : List VDoc → Option VDoc
  | [] => none
  | d :: ds =>
    if d.owner = owner ∧ d.permlink = permlink then some d
    else findOne owner permlink ds

/-- `updateOne(filter, update)`: apply `f` to the first document matching
`filter`; returns `(modifiedCount, collection)` where the count is `1`
when a matching document was rewritten to something different. -/
def updateOne (filter : VDoc → Bool) (f : VDoc → VDoc) :
    List VDoc → Nat × List VDoc
  | [] => (0, [])
  | d :: ds =>
    if filter d then
      (if f d = d then 0 else 1, f d :: ds)
    else
      ((updateOne filter f ds).1, d :: (updateOne filter f ds).2)

/-- The server's database: the legacy `videos` collection and the
`embed-video` collection. -/
structure Db where
  legacy : List VDoc
  embeds : List VDoc
deriving Repr, DecidableEq

/-- `findLegacyVideo` from `db.js`. -/
def findLegacyVideo (db : Db) (owner permlink : String) : Option VDoc :=
  findOne owner permlink db.legacy

/-- `findEmbedVideo` from `db.js`. -/
def findEmbedVideo (db : Db) (owner permlink : String) : Option VDoc :=
  findOne owner permlink db.embeds

/-- MongoDB `$inc {views: 1}` on a document: a missing field is created
holding the increment. -/
def incViews (d : VDoc) : VDoc :=
  { d with views := some (d.views.getD 0 + 1) }

/-- `incrementLegacyViews` from `db.js`: a single `$inc` update; returns
`modifiedCount > 0` and the new state. -/
def incrementLegacyViews (db : Db) (owner permlink : String) : Bool × Db :=
  let r := updateOne (fun d => d.owner = owner ∧ d.permlink = permlink) incViews db.legacy
  (r.1 > 0, { db with legacy := r.2 })

/-- `incrementEmbedViews` from `db.js`: first `$set {views: 0}` on a
matching document whose `views` field does not exist, then `$inc
{views: 1}`; returns `modifiedCount > 0` of the second update. -/
def incrementEmbedViews (db : Db) (owner permlink : String) : Bool × Db :=
  let embeds₁ :=
    (updateOne
      (fun d => d.owner = owner ∧ d.permlink = permlink ∧ d.views = none)
      (fun d => { d with views := some 0 }) db.embeds).2
  let r := updateOne (fun d => d.owner = owner ∧ d.permlink = permlink) incViews embeds₁
  (r.1 > 0, { db with embeds := r.2 })

/-! ### HTTP handlers (`server.js` routes) -/

/-- Response of `GET /api/watch` / `GET /api/embed`, keeping the fields
the claims are about. -/
inductive WatchResp
  | badRequest (error : String)
  | notFound (error : String) (status : Option String)
  | internalError
  | ok (urls : VideoUrls) (isPlaceholder : Bool) (status : Option String)
      (thumbnail : String) (views : Nat)
deriving Repr, DecidableEq

/-- The HTTP status code of a watch/embed response. -/
def WatchResp.httpStatus : WatchResp → Nat
  | .badRequest _ => 400
  | .notFound _ _ => 404
  | .internalError => 500
  | .ok _ _ _ _ _ => 200

/-- `GET /api/watch` handler: parameter validation, lookup in the legacy
collection, status resolution, error-to-status mapping (every resolver
`error` becomes a 404; a thrown error becomes a 500). -/
def watchHandler (cfg : Config) (db : Db) (v : Option String) : WatchResp :=
  match parseVideoParams v with
  | .error e => .badRequest e
  | .ok (owner, permlink) =>
    match findLegacyVideo db owner permlink with
    | none => .notFound "Video not found" none
    | some video =>
      match getVideoUrlsForLegacyStatus cfg video with
      | .error _ => .internalError
      | .ok (.failure e st) => .notFound e st
      | .ok (.success urls isPlaceholder) =>
        let thumbnail :=
          match video.thumbnail with
          | some t =>
            if strTruthy (some t) then transformIPFSUrlStr cfg false t
            else optTemplate cfg.IPFS_GATEWAY ++ "/" ++ optTemplate cfg.DEFAULT_THUMBNAIL_CID
          | none =>
            optTemplate cfg.IPFS_GATEWAY ++ "/" ++ optTemplate cfg.DEFAULT_THUMBNAIL_CID
        .ok urls isPlaceholder video.status thumbnail (video.views.getD 0)

/-- `GET /api/embed` handler: same parameter rules, lookup in the embed
collection, embed status resolution. -/
def embedHandler (cfg : Config) (db : Db) (v : Option String) : WatchResp :=
  match parseVideoParams v with
  | .error e => .badRequest e
  | .ok (owner, permlink) =>
    match findEmbedVideo db owner permlink with
    | none => .notFound "Video not found" none
    | some video =>
      match getVideoUrlsForEmbedStatus cfg video with
      | .error _ => .internalError
      | .ok (.failure e st) => .notFound e st
      | .ok (.success urls isPlaceholder) =>
        let thumbnail :=
          optTemplate cfg.IPFS_GATEWAY ++ "/" ++ optTemplate cfg.DEFAULT_THUMBNAIL_CID
        .ok urls isPlaceholder video.status thumbnail (video.views.getD 0)

/-- Response of `POST /api/view`. -/
inductive ViewResp
  | badRequest (error : String)
  | notFound (error : String)
  | ok (success : Bool) (counted : Bool) (reason : Option String)
deriving Repr, DecidableEq

/-- The HTTP status code of a view response. -/
def ViewResp.httpStatus : ViewResp → Nat
  | .badRequest _ => 400
  | .notFound _ => 404
  | .ok _ _ _ => 200

/-- The request body of `POST /api/view`; any field may be absent. -/
structure ViewReq where
  owner : Option String := none
  permlink : Option String := none
  type : Option String := none
deriving Repr, DecidableEq

/-- The "ready" status set checked by the `POST /api/view` handler. -/
def isReadyStatus (status : String) : Bool :=
  status ∈ [VIDEO_STATUS_PUBLISHED, VIDEO_STATUS_SCHEDULED,
    VIDEO_STATUS_PUBLISH_LATER, VIDEO_STATUS_PUBLISH_MANUAL]

/-- `POST /api/view` handler.  The lookup reads `dbAtFind` and the
increment runs against `dbAtInc`: passing the same state twice models an
uninterleaved request, two different states model a concurrent writer
acting between the status check and the increment. -/
def viewHandlerRace (body : ViewReq) (dbAtFind dbAtInc : Db) : ViewResp × Db :=
  if !strTruthy body.owner ∨ !strTruthy body.permlink ∨ !strTruthy body.type then
    (.badRequest "Missing required fields", dbAtInc)
  else
    let owner := body.owner.getD ""
    let permlink := body.permlink.getD ""
    let ty := body.type.getD ""
    let video? : Except ViewResp (Option VDoc) :=
      if ty = "legacy" then .ok (findLegacyVideo dbAtFind owner permlink)
      else if ty = "embed" then .ok (findEmbedVideo dbAtFind owner permlink)
      else .error (.badRequest "Invalid type. Must be \"legacy\" or \"embed\"")
    match video? with
    | .error r => (r, dbAtInc)
    | .ok none => (.notFound "Video not found", dbAtInc)
    | .ok (some video) =>
      let status := statusLower video.status
      if isReadyStatus status then
        let r :=
          if ty = "legacy" then incrementLegacyViews dbAtInc owner permlink
          else incrementEmbedViews dbAtInc owner permlink
        (.ok r.1 true none, r.2)
      else
        (.ok false false (some "Video not in published state"), dbAtInc)

/-- `POST /api/view` without interleaving: find and increment observe the
same database state. -/
def viewHandler (body : ViewReq) (db : Db) : ViewResp × Db :=
  viewHandlerRace body db db

/-- The persisted view counter of the record identified by
`type`/`owner`/`permlink` (0 when absent, as serialized by the read
endpoints). -/
def dbViews (db : Db) (ty o p : String) : Nat :=
  match (if ty = "legacy" then findLegacyVideo db o p else findEmbedVideo db o p) with
  | some d => d.views.getD 0
  | none => 0

/-! ### Client playback session (`src/main.js`)

The session state lives as ad hoc fields on the Video.js `player`
object (`stallCount`, `lastStallTime`, `triedFallback`,
`hasIncrementedView`) plus the module-level `currentVideoData`.  The
handlers below embed the `play`, `waiting`, `error` and one-shot
`loadedmetadata` listeners together with `loadVideoFromData`.  Setting a
new source is synchronous; the seek registered with
`player.one('loadedmetadata', ...)` is modelled as `pendingResume` and
fires on the next `loadedmetadata` event. -/

/-- The video payload held in `currentVideoData`, with the fields the
handlers access.  `videoUrlFallback` is the field the stall and error
handlers guard their failover on; the current `server.js` responses
carry `videoUrl` and `videoUrlFallback1..3` but never `videoUrlFallback`
(only an earlier server revision sent it), so for server-resolved
payloads it is `undefined`. -/
structure VideoData where
  owner : String
  permlink : String
  type : String
  videoUrl : String
  videoUrlFallback : Option String := none
  videoUrlFallback1 : Option String := none
  videoUrlFallback2 : Option String := none
  videoUrlFallback3 : Option String := none
deriving Repr, DecidableEq

/-- Client environment facts probed once (`isMac` gates buffer cleanup
and the bandwidth bump in the `waiting` handler). -/
structure ClientEnv where
  isMac : Bool
deriving Repr, DecidableEq

/-- The playback session state. `viewCalls` counts invocations of
`incrementViewCount`; `stateLabel` is the last `updatePlayerState`
argument; `codecErrorShown` records `showCodecError()`. -/
structure PlayerState where
  currentVideoData : Option VideoData := none
  stallCount : Nat := 0
  lastStallTime : Int := 0
  triedFallback : Bool := false
  hasIncrementedView : Bool := false
  bandwidth : Int := 5000000
  currentSrc : String := ""
  currentTime : Int := 0
  pendingResume : Option Int := none
  viewCalls : Nat := 0
  codecErrorShown : Bool := false
  stateLabel : String := ""
deriving Repr, DecidableEq

/-- Events delivered to the session's listeners.  `waiting` carries
`Date.now()`; `error` carries the media error code (3 is
`MEDIA_ERR_DECODE`). -/
inductive PEvent
  | play
  | pause
  | waiting (now : Int)
  | error (code : Nat)
  | loadedmetadata
deriving Repr, DecidableEq

/-- The `player.on('play')` handler: increment the view count on the
first play of the loaded video, guarded by `hasIncrementedView`. -/
def onPlay (s : PlayerState) : PlayerState :=
  let s := { s with stateLabel := "Playing" }
  if s.currentVideoData.isSome ∧ !s.hasIncrementedView then
    { s with viewCalls := s.viewCalls + 1, hasIncrementedView := true }
  else
    s

/-- The `player.on('pause')` handler. -/
def onPause (s : PlayerState) : PlayerState :=
  { s with stateLabel := "Paused" }

/-- The `player.on('waiting')` handler: sliding-window stall accounting,
bandwidth bump (non-Mac), and after three stalls in the window a one-time
switch to `videoUrlFallback` resuming from the current position. -/
def onWaiting (env : ClientEnv) (now : Int) (s : PlayerState) : PlayerState :=
  let timeSinceLastStall := now - s.lastStallTime
  let s :=
    if timeSinceLastStall < 10000 then
      { s with stallCount := s.stallCount + 1 }
    else
      { s with stallCount := 1 }
  let s := { s with lastStallTime := now }
  let s :=
    if !env.isMac ∧ s.bandwidth < 5000000 then
      { s with bandwidth := max (s.bandwidth * 2) 5000000 }
    else
      s
  match s.currentVideoData with
  | some data =>
    match data.videoUrlFallback with
    | some fallback =>
      if s.stallCount ≥ 3 ∧ !s.triedFallback then
        let s := { s with triedFallback := true, stallCount := 0, currentSrc := fallback }
        let currentTime := s.currentTime
        { s with pendingResume := some currentTime,
                 stateLabel := "Switched to backup gateway" }
      else
        s
    | none => s
  | none => s

/-- The `player.on('error')` handler: a decode error (code 3) retries the
fallback gateway once if `triedFallback` is still clear, otherwise shows
the codec error overlay; other errors use the same fallback guard. -/
def onError (code : Nat) (s : PlayerState) : PlayerState :=
  if code = 3 then
    match s.currentVideoData with
    | some data =>
      match data.videoUrlFallback with
      | some fallback =>
        if !s.triedFallback then
          { s with triedFallback := true, currentSrc := fallback,
                   currentTime := 0, pendingResume := none,
                   stateLabel := "Retrying with different gateway..." }
        else
          { s with codecErrorShown := true, stateLabel := "Decode Error - See Console" }
      | none =>
        { s with codecErrorShown := true, stateLabel := "Decode Error - See Console" }
    | none =>
      { s with codecErrorShown := true, stateLabel := "Decode Error - See Console" }
  else
    match s.currentVideoData with
    | some data =>
      match data.videoUrlFallback with
      | some fallback =>
        if !s.triedFallback then
          { s with triedFallback := true, currentSrc := fallback,
                   currentTime := 0, pendingResume := none,
                   stateLabel := "Retrying with fallback gateway..." }
        else
          { s with stateLabel := "Error" }
      | none => { s with stateLabel := "Error" }
    | none => { s with stateLabel := "Error" }

/-- The one-shot `loadedmetadata` listener registered by the stall
failover: seek back to the captured position and play. -/
def onLoadedMetadata (s : PlayerState) : PlayerState :=
  match s.pendingResume with
  | some t => { s with currentTime := t, pendingResume := none }
  | none => s

/-- Dispatch one event to the session. -/
def step (env : ClientEnv) (s : PlayerState) : PEvent → PlayerState
  | .play => onPlay s
  | .pause => onPause s
  | .waiting now => onWaiting env now s
  | .error code => onError code s
  | .loadedmetadata => onLoadedMetadata s

/-- Process a list of events in order. -/
def run (env : ClientEnv) (s : PlayerState) : List PEvent → PlayerState
  | [] => s
  | e :: es => run env (step env s e) es

/-- `loadVideoFromData`: install the payload, clear the per-session
guards, and assign the primary source. -/
def loadVideoFromData (videoData : VideoData) (s : PlayerState) : PlayerState :=
  { s with currentVideoData := some videoData
           hasIncrementedView := false
           triedFallback := false
           currentSrc := videoData.videoUrl
           pendingResume := none
           stateLabel := "Ready" }

/-- The player as created by `initializePlayer` (`player.stallCount = 0`,
`player.lastStallTime = 0`, guards unset). -/
def initState : PlayerState := {}

/-- The client payload assembled from a successful `/api/watch` or
`/api/embed` response of the current `server.js`: the JSON body carries
`videoUrl` and `videoUrlFallback1..3` and has no `videoUrlFallback` key,
so that property of the parsed object is `undefined`.  (Only an earlier
revision of the server, which returned `{primary, fallback}` pairs,
exposed a single `videoUrlFallback` field.) -/
def payloadOfResponse (owner permlink ty : String) (urls : VideoUrls) : VideoData :=
  { owner := owner, permlink := permlink, type := ty,
    videoUrl := urls.primary,
    videoUrlFallback := none,
    videoUrlFallback1 := some urls.fallback1,
    videoUrlFallback2 := some urls.fallback2,
    videoUrlFallback3 := some urls.fallback3 }

/-! ### Concrete fixtures used by witnesses and counterexamples -/

/-- A payload in the legacy response shape, carrying the single
`videoUrlFallback` field the stall and decode handlers read. -/
def videoDataA : VideoData :=
  { owner := "alice", permlink := "vid", type := "embed",
    videoUrl := "https://ipfs-3speak.b-cdn.net/ipfs/Qm1/manifest.m3u8",
    videoUrlFallback := some "https://ipfs.3speak.tv/ipfs/Qm1/manifest.m3u8" }

/-- A legacy-shape session two rapid stalls in, position 42, fallback
untried. -/
def stalledState : PlayerState :=
  { currentVideoData := some videoDataA, stallCount := 2, lastStallTime := 0,
    triedFallback := false, currentTime := 42, currentSrc := videoDataA.videoUrl }

/-- A session freshly loaded from a current-API embed resolution of
`ipfs://QmManifest/manifest.m3u8`. -/
def loadedApiSession : PlayerState :=
  loadVideoFromData
    (payloadOfResponse "alice" "vid" "embed"
      (getVideoUrls "ipfs://QmManifest/manifest.m3u8")) initState

/-- That session after three stalls inside the 10-second window. -/
def stalledApiSession : PlayerState :=
  run ⟨false⟩ loadedApiSession [.waiting 1000, .waiting 2000, .waiting 3000]

/-- The condition under which the `v` query parameter is actually
rejected by `parseVideoParams`: absent or empty, or one of the first two
`/`-segments empty or missing (extra segments are not rejected). -/
def paramMalformed (v : Option String) : Bool :=
  match v with
  | none => true
  | some s =>
    s.isEmpty || ((jsSplitSlash s).getD 0 "").isEmpty ||
      ((jsSplitSlash s).getD 1 "").isEmpty

/-- The environment variable holding each placeholder category's CID. -/
def placeholderCid (cfg : Config) : PlaceholderType → Option String
  | .processing => cfg.PLACEHOLDER_PROCESSING_CID
  | .failed => cfg.PLACEHOLDER_FAILED_CID
  | .deleted => cfg.PLACEHOLDER_DELETED_CID

/-- A published legacy record with 7 views. -/
def legacyDocPublished : VDoc :=
  { owner := "a", permlink := "b", status := some "published", views := some 7 }

/-- The same record still encoding. -/
def legacyDocEncoding : VDoc :=
  { owner := "a", permlink := "b", status := some "encoding_ipfs", views := some 7 }

/-- A database holding only the published record. -/
def dbPublished : Db := { legacy := [legacyDocPublished], embeds := [] }

/-- A database holding only the encoding record. -/
def dbEncoding : Db := { legacy := [legacyDocEncoding], embeds := [] }

/-- The view request for that record. -/
def viewBodyAB : ViewReq :=
  { owner := some "a", permlink := some "b", type := some "legacy" }

/-! ## Theorems -/

/-- If two strings have different lengths, appending the same suffix keeps
them different. -/
theorem append_ne_of_length_ne {a b : String} (c : String)
    (h : a.length ≠ b.length) : a ++ c ≠ b ++ c := by
  intro heq
  apply h
  have := congrArg String.length heq
  simp only [String.length_append] at this
  omega

/-- C2: `getVideoUrls` always yields a chain of exactly four URLs; a URI
not starting with `ipfs://` fills all four slots byte-identically; an
`ipfs://` URI yields the four distinct configured gateways joined with
the stripped CID path, CDN first. -/
theorem gateway_chain_c2 (u : String) :
    (getVideoUrls u).toList.length = 4 ∧
    (jsStartsWith u "ipfs://" = false → (getVideoUrls u).toList = [u, u, u, u]) ∧
    (jsStartsWith u "ipfs://" = true →
      (getVideoUrls u).toList =
        [gatewayCdn ++ "/" ++ jsDrop u 7,
         gatewaySupernode ++ "/" ++ jsDrop u 7,
         gatewayHotnode ++ "/" ++ jsDrop u 7,
         gatewayAudionode ++ "/" ++ jsDrop u 7] ∧
      (getVideoUrls u).toList.Pairwise (· ≠ ·)) := by
  refine ⟨?_, ?_, ?_⟩
  · unfold getVideoUrls VideoUrls.toList
    split <;> rfl
  · intro h
    simp [getVideoUrls, h, VideoUrls.toList]
  · intro h
    have hlist : (getVideoUrls u).toList =
        [gatewayCdn ++ "/" ++ jsDrop u 7,
         gatewaySupernode ++ "/" ++ jsDrop u 7,
         gatewayHotnode ++ "/" ++ jsDrop u 7,
         gatewayAudionode ++ "/" ++ jsDrop u 7] := by
      simp [getVideoUrls, h, VideoUrls.toList]
    refine ⟨hlist, ?_⟩
    rw [hlist]
    have h1 : (gatewayCdn ++ "/").length = 35 := by decide
    have h2 : (gatewaySupernode ++ "/").length = 28 := by decide
    have h3 : (gatewayHotnode ++ "/").length = 33 := by decide
    have h4 : (gatewayAudionode ++ "/").length = 34 := by decide
    have n12 : gatewayCdn ++ "/" ++ jsDrop u 7 ≠ gatewaySupernode ++ "/" ++ jsDrop u 7 :=
      append_ne_of_length_ne _ (by rw [h1, h2]; omega)
    have n13 : gatewayCdn ++ "/" ++ jsDrop u 7 ≠ gatewayHotnode ++ "/" ++ jsDrop u 7 :=
      append_ne_of_length_ne _ (by rw [h1, h3]; omega)
    have n14 : gatewayCdn ++ "/" ++ jsDrop u 7 ≠ gatewayAudionode ++ "/" ++ jsDrop u 7 :=
      append_ne_of_length_ne _ (by rw [h1, h4]; omega)
    have n23 : gatewaySupernode ++ "/" ++ jsDrop u 7 ≠ gatewayHotnode ++ "/" ++ jsDrop u 7 :=
      append_ne_of_length_ne _ (by rw [h2, h3]; omega)
    have n24 : gatewaySupernode ++ "/" ++ jsDrop u 7 ≠ gatewayAudionode ++ "/" ++ jsDrop u 7 :=
      append_ne_of_length_ne _ (by rw [h2, h4]; omega)
    have n34 : gatewayHotnode ++ "/" ++ jsDrop u 7 ≠ gatewayAudionode ++ "/" ++ jsDrop u 7 :=
      append_ne_of_length_ne _ (by rw [h3, h4]; omega)
    refine List.Pairwise.cons ?_ (List.Pairwise.cons ?_
      (List.Pairwise.cons ?_ (List.pairwise_singleton _ _)))
    · intro b hb
      simp only [List.mem_cons, List.not_mem_nil, or_false] at hb
      rcases hb with rfl | rfl | rfl
      · exact n12
      · exact n13
      · exact n14
    · intro b hb
      simp only [List.mem_cons, List.not_mem_nil, or_false] at hb
      rcases hb with rfl | rfl
      · exact n23
      · exact n24
    · intro b hb
      simp only [List.mem_cons, List.not_mem_nil, or_false] at hb
      rcases hb with rfl
      exact n34

/-- C2 witness: the theorem applied to a plain URL and to an `ipfs://`
URI. -/
theorem gateway_chain_c2_witness :
    (getVideoUrls "https://x.example/a.m3u8").toList =
      ["https://x.example/a.m3u8", "https://x.example/a.m3u8",
       "https://x.example/a.m3u8", "https://x.example/a.m3u8"] ∧
    (getVideoUrls "ipfs://QmAbc/manifest.m3u8").toList.Pairwise (· ≠ ·) :=
  ⟨(gateway_chain_c2 "https://x.example/a.m3u8").2.1 (by decide),
   ((gateway_chain_c2 "ipfs://QmAbc/manifest.m3u8").2.2 (by decide)).2⟩

/-- C1 counterexample: an embed record with publish-ready status
`"scheduled"` and a present manifest identifier does not resolve to a
real chain — the embed resolver requires status exactly `"published"`
and answers `"Video not ready"` here. -/
theorem embed_ready_c1_cex :
    getVideoUrlsForEmbedStatus {}
        { owner := "alice", permlink := "vid", status := some "scheduled",
          manifest_cid := some "QmManifest" } =
      .ok (.failure "Video not ready" (some "scheduled")) := rfl

/-- C1 (amended): only an embed record with lowercased status exactly
`published` and a truthy manifest identifier resolves to the real chain
built from `ipfs://<manifest_cid>/manifest.m3u8`; the other publish-ready
statuses, and any publish-ready status without the manifest identifier,
resolve to a `"Video not ready"` error — never a chain with undefined
segments. -/
theorem embed_ready_c1 (cfg : Config) (v : VDoc) :
    (statusLower v.status = VIDEO_STATUS_PUBLISHED → strTruthy v.manifest_cid = true →
      getVideoUrlsForEmbedStatus cfg v =
        .ok (.success
          (getVideoUrls ("ipfs://" ++ v.manifest_cid.getD "" ++ "/manifest.m3u8")) false)) ∧
    (statusLower v.status ∈ [VIDEO_STATUS_PUBLISH_LATER, VIDEO_STATUS_PUBLISH_MANUAL,
        VIDEO_STATUS_PUBLISHED, VIDEO_STATUS_SCHEDULED] →
      strTruthy v.manifest_cid = false →
      getVideoUrlsForEmbedStatus cfg v = .ok (.failure "Video not ready" v.status)) ∧
    (statusLower v.status ∈ [VIDEO_STATUS_PUBLISH_LATER, VIDEO_STATUS_PUBLISH_MANUAL,
        VIDEO_STATUS_SCHEDULED] →
      getVideoUrlsForEmbedStatus cfg v = .ok (.failure "Video not ready" v.status)) := by
  refine ⟨?_, ?_, ?_⟩
  · intro h1 h2
    simp [getVideoUrlsForEmbedStatus, h1, h2]
  · intro h1 h2
    simp only [List.mem_cons, List.not_mem_nil, or_false] at h1
    rcases h1 with h1 | h1 | h1 | h1 <;>
      simp_all [getVideoUrlsForEmbedStatus, VIDEO_STATUS_PUBLISH_LATER,
        VIDEO_STATUS_PUBLISH_MANUAL, VIDEO_STATUS_PUBLISHED, VIDEO_STATUS_SCHEDULED,
        VIDEO_STATUS_DELETE, VIDEO_STATUS_DELETED, VIDEO_STATUS_SELF_DELETED,
        VIDEO_STATUS_ENCODING_IPFS, VIDEO_STATUS_IPFS_PINNING, VIDEO_STATUS_UPLOADED,
        VIDEO_STATUS_ENCODING_FAILED]
  · intro h1
    simp only [List.mem_cons, List.not_mem_nil, or_false] at h1
    rcases h1 with h1 | h1 | h1 <;>
      simp_all [getVideoUrlsForEmbedStatus, VIDEO_STATUS_PUBLISH_LATER,
        VIDEO_STATUS_PUBLISH_MANUAL, VIDEO_STATUS_PUBLISHED, VIDEO_STATUS_SCHEDULED,
        VIDEO_STATUS_DELETE, VIDEO_STATUS_DELETED, VIDEO_STATUS_SELF_DELETED,
        VIDEO_STATUS_ENCODING_IPFS, VIDEO_STATUS_IPFS_PINNING, VIDEO_STATUS_UPLOADED,
        VIDEO_STATUS_ENCODING_FAILED]

/-- C1 witness: the amended theorem at a published record with manifest
and at a scheduled record with manifest. -/
theorem embed_ready_c1_witness :
    getVideoUrlsForEmbedStatus {}
        { owner := "alice", permlink := "vid", status := some "published",
          manifest_cid := some "QmManifest" } =
      .ok (.success (getVideoUrls "ipfs://QmManifest/manifest.m3u8") false) ∧
    getVideoUrlsForEmbedStatus {}
        { owner := "alice", permlink := "vid", status := some "publish_later",
          manifest_cid := some "QmManifest" } =
      .ok (.failure "Video not ready" (some "publish_later")) :=
  ⟨(embed_ready_c1 {} _).1 (by decide) (by decide),
   (embed_ready_c1 {} _).2.2 (by decide)⟩

/-- A parse failure turns into a 400 response on `/api/watch`. -/
theorem watchHandler_of_parse_error (cfg : Config) (db : Db) (v : Option String)
    (e : String) (h : parseVideoParams v = .error e) :
    watchHandler cfg db v = .badRequest e := by
  unfold watchHandler
  rw [h]

/-- A parse failure turns into a 400 response on `/api/embed`. -/
theorem embedHandler_of_parse_error (cfg : Config) (db : Db) (v : Option String)
    (e : String) (h : parseVideoParams v = .error e) :
    embedHandler cfg db v = .badRequest e := by
  unfold embedHandler
  rw [h]

/-- `parseVideoParams` on a present parameter, written out. -/
theorem parseVideoParams_some (s : String) :
    parseVideoParams (some s) =
      (if s.isEmpty then Except.error "Missing video parameter (v)"
       else if ((jsSplitSlash s).getD 0 "").isEmpty || ((jsSplitSlash s).getD 1 "").isEmpty then
         Except.error "Invalid video format. Expected: owner/permlink"
       else Except.ok ((jsSplitSlash s).getD 0 "", (jsSplitSlash s).getD 1 "")) := rfl

/-- After a successful parse, `/api/watch` never answers 400. -/
theorem watchHandler_not400 (cfg : Config) (db : Db) (v : Option String)
    (o p : String) (h : parseVideoParams v = .ok (o, p)) :
    (watchHandler cfg db v).httpStatus ≠ 400 := by
  unfold watchHandler
  rw [h]
  rcases hf : findLegacyVideo db o p with _ | video
  · simp [hf, WatchResp.httpStatus]
  · rcases hr : getVideoUrlsForLegacyStatus cfg video with je | out
    · simp [hf, hr, WatchResp.httpStatus]
    · rcases out with ⟨urls, isP⟩ | ⟨e, st⟩ <;> simp [hf, hr, WatchResp.httpStatus]

/-- After a successful parse, `/api/embed` never answers 400. -/
theorem embedHandler_not400 (cfg : Config) (db : Db) (v : Option String)
    (o p : String) (h : parseVideoParams v = .ok (o, p)) :
    (embedHandler cfg db v).httpStatus ≠ 400 := by
  unfold embedHandler
  rw [h]
  rcases hf : findEmbedVideo db o p with _ | video
  · simp [hf, WatchResp.httpStatus]
  · rcases hr : getVideoUrlsForEmbedStatus cfg video with je | out
    · simp [hf, hr, WatchResp.httpStatus]
    · rcases out with ⟨urls, isP⟩ | ⟨e, st⟩ <;> simp [hf, hr, WatchResp.httpStatus]

/-- A malformed parameter produces a parse error. -/
theorem parse_error_of_malformed (v : Option String) (h : paramMalformed v = true) :
    ∃ e, parseVideoParams v = .error e := by
  rcases v with _ | s
  · exact ⟨_, rfl⟩
  · rw [parseVideoParams_some]
    by_cases hs : s.isEmpty = true
    · refine ⟨"Missing video parameter (v)", ?_⟩
      rw [if_pos hs]
    · simp only [paramMalformed, Bool.or_eq_true] at h
      have hseg : ((jsSplitSlash s).getD 0 "").isEmpty = true ∨
          ((jsSplitSlash s).getD 1 "").isEmpty = true := by
        rcases h with (h | h) | h
        · exact absurd h hs
        · exact Or.inl h
        · exact Or.inr h
      refine ⟨"Invalid video format. Expected: owner/permlink", ?_⟩
      rw [if_neg hs, if_pos]
      rcases hseg with h | h
      · rw [h, Bool.true_or]
      · rw [h, Bool.or_true]

/-- A well-formed parameter parses to its first two segments. -/
theorem parse_ok_of_not_malformed (s : String) (h : paramMalformed (some s) = false) :
    parseVideoParams (some s) =
      .ok ((jsSplitSlash s).getD 0 "", (jsSplitSlash s).getD 1 "") := by
  simp only [paramMalformed, Bool.or_eq_false_iff] at h
  obtain ⟨⟨h1, h2⟩, h3⟩ := h
  rw [parseVideoParams_some,
    if_neg (by rw [h1]; exact Bool.false_ne_true),
    if_neg (by rw [h2, h3]; exact Bool.false_ne_true)]

/-- C7 counterexample: `v = "alice/vid/extra"` has three segments, yet it
is not rejected — JS destructuring keeps the first two segments, so both
endpoints proceed past validation (404 on an empty database, not 400). -/
theorem param_validation_c7_cex :
    parseVideoParams (some "alice/vid/extra") = .ok ("alice", "vid") ∧
    (watchHandler {} { legacy := [], embeds := [] } (some "alice/vid/extra")).httpStatus
      = 404 ∧
    (embedHandler {} { legacy := [], embeds := [] } (some "alice/vid/extra")).httpStatus
      = 404 :=
  ⟨rfl, rfl, rfl⟩

/-- C7 (amended): `GET /api/watch` and `GET /api/embed` answer 400 exactly
when the `v` parameter is missing or empty, or its first or second
`/`-segment is empty or missing; extra segments beyond the second are
accepted (the first two are used, the rest ignored). -/
theorem param_validation_c7 (cfg : Config) (db : Db) (v : Option String) :
    ((watchHandler cfg db v).httpStatus = 400 ↔ paramMalformed v = true) ∧
    ((embedHandler cfg db v).httpStatus = 400 ↔ paramMalformed v = true) := by
  by_cases hm : paramMalformed v = true
  · obtain ⟨e, he⟩ := parse_error_of_malformed v hm
    rw [watchHandler_of_parse_error cfg db v e he,
      embedHandler_of_parse_error cfg db v e he]
    simp [hm, WatchResp.httpStatus]
  · rcases v with _ | s
    · exact absurd rfl hm
    · have hok := parse_ok_of_not_malformed s (by
        cases h : paramMalformed (some s)
        · rfl
        · exact absurd h hm)
      constructor
      · simp [watchHandler_not400 cfg db (some s) _ _ hok, hm]
      · simp [embedHandler_not400 cfg db (some s) _ _ hok, hm]

/-- A placeholder CID configured as the empty string transforms to a
falsy URL, so the placeholder branch reports the configuration error. -/
theorem placeholderBranch_empty (cfg : Config) (pt : PlaceholderType) (video : VDoc)
    (h : placeholderCid cfg pt = some "") :
    placeholderBranch cfg pt video =
      .ok (.failure "Placeholder configuration error" video.status) := by
  cases pt <;>
    simp_all [placeholderCid, placeholderBranch, getPlaceholderVideo, transformIPFSUrl,
      transformIPFSUrlStr, jsStartsWith, listStartsWith] <;> rfl

/-- An entirely absent placeholder CID makes the branch throw. -/
theorem placeholderBranch_absent (cfg : Config) (pt : PlaceholderType) (video : VDoc)
    (h : placeholderCid cfg pt = none) :
    placeholderBranch cfg pt video = .error .typeError := by
  cases pt <;>
    simp_all [placeholderCid, placeholderBranch, getPlaceholderVideo, transformIPFSUrl]

/-- A deleted-class status routes the legacy resolver into the deleted
placeholder branch. -/
theorem legacy_resolver_deleted (cfg : Config) (video : VDoc)
    (h : statusLower video.status ∈
      [VIDEO_STATUS_DELETE, VIDEO_STATUS_DELETED, VIDEO_STATUS_SELF_DELETED]) :
    getVideoUrlsForLegacyStatus cfg video = placeholderBranch cfg .deleted video := by
  simp only [List.mem_cons, List.not_mem_nil, or_false] at h
  rcases h with h | h | h <;>
    simp_all [getVideoUrlsForLegacyStatus, VIDEO_STATUS_DELETE, VIDEO_STATUS_DELETED,
      VIDEO_STATUS_SELF_DELETED]

/-- A processing-class status routes the legacy resolver into the
processing placeholder branch. -/
theorem legacy_resolver_processing (cfg : Config) (video : VDoc)
    (h : statusLower video.status ∈
      [VIDEO_STATUS_ENCODING_IPFS, VIDEO_STATUS_IPFS_PINNING, VIDEO_STATUS_UPLOADED]) :
    getVideoUrlsForLegacyStatus cfg video = placeholderBranch cfg .processing video := by
  simp only [List.mem_cons, List.not_mem_nil, or_false] at h
  rcases h with h | h | h <;>
    simp_all [getVideoUrlsForLegacyStatus, VIDEO_STATUS_DELETE, VIDEO_STATUS_DELETED,
      VIDEO_STATUS_SELF_DELETED, VIDEO_STATUS_ENCODING_IPFS, VIDEO_STATUS_IPFS_PINNING,
      VIDEO_STATUS_UPLOADED]

/-- A failed-class status routes the legacy resolver into the failed
placeholder branch. -/
theorem legacy_resolver_failed (cfg : Config) (video : VDoc)
    (h : statusLower video.status ∈ [VIDEO_STATUS_ENCODING_FAILED, "failed"]) :
    getVideoUrlsForLegacyStatus cfg video = placeholderBranch cfg .failed video := by
  simp only [List.mem_cons, List.not_mem_nil, or_false] at h
  rcases h with h | h <;>
    simp_all [getVideoUrlsForLegacyStatus, VIDEO_STATUS_DELETE, VIDEO_STATUS_DELETED,
      VIDEO_STATUS_SELF_DELETED, VIDEO_STATUS_ENCODING_IPFS, VIDEO_STATUS_IPFS_PINNING,
      VIDEO_STATUS_UPLOADED, VIDEO_STATUS_ENCODING_FAILED]

/-- A resolver failure value becomes a 404 on `/api/watch`. -/
theorem watchHandler_of_failure (cfg : Config) (db : Db) (v : Option String)
    (o p : String) (video : VDoc) (e : String) (st : Option String)
    (hparse : parseVideoParams v = .ok (o, p))
    (hfind : findLegacyVideo db o p = some video)
    (hres : getVideoUrlsForLegacyStatus cfg video = .ok (.failure e st)) :
    watchHandler cfg db v = .notFound e st := by
  simp [watchHandler, hparse, hfind, hres]

/-- A thrown resolver error becomes a 500 on `/api/watch`. -/
theorem watchHandler_of_thrown (cfg : Config) (db : Db) (v : Option String)
    (o p : String) (video : VDoc) (je : JsError)
    (hparse : parseVideoParams v = .ok (o, p))
    (hfind : findLegacyVideo db o p = some video)
    (hres : getVideoUrlsForLegacyStatus cfg video = .error je) :
    watchHandler cfg db v = .internalError := by
  simp [watchHandler, hparse, hfind, hres]

/-- C8 counterexample: a legacy record with status `"deleted"` and the
deleted-placeholder CID configured empty is answered with HTTP 404
(`Placeholder configuration error` mapped through the generic resolver
error path), not a 400/500-class response. -/
theorem placeholder_config_c8_cex :
    watchHandler { PLACEHOLDER_DELETED_CID := some "" }
        { legacy := [{ owner := "alice", permlink := "vid", status := some "deleted" }],
          embeds := [] }
        (some "alice/vid") =
      .notFound "Placeholder configuration error" (some "deleted") ∧
    (watchHandler { PLACEHOLDER_DELETED_CID := some "" }
        { legacy := [{ owner := "alice", permlink := "vid", status := some "deleted" }],
          embeds := [] }
        (some "alice/vid")).httpStatus = 404 :=
  ⟨rfl, rfl⟩

/-- C8 (amended): when the status classifies as Deleted, Processing or
Failed and the placeholder CID for that category is configured empty,
resolution fails with `Placeholder configuration error` carrying the raw
status, surfaced as an HTTP 404 like every other resolution error; when
the CID variable is absent entirely, the handler throws and answers a
bare 500 without the category. -/
theorem placeholder_config_c8 (cfg : Config) (db : Db) (v : Option String)
    (o p : String) (video : VDoc) (pt : PlaceholderType)
    (hparse : parseVideoParams v = .ok (o, p))
    (hfind : findLegacyVideo db o p = some video)
    (hcat : getVideoUrlsForLegacyStatus cfg video = placeholderBranch cfg pt video) :
    (placeholderCid cfg pt = some "" →
      watchHandler cfg db v = .notFound "Placeholder configuration error" video.status ∧
      (watchHandler cfg db v).httpStatus = 404) ∧
    (placeholderCid cfg pt = none → watchHandler cfg db v = .internalError) := by
  constructor
  · intro hcid
    have hres : getVideoUrlsForLegacyStatus cfg video =
        .ok (.failure "Placeholder configuration error" video.status) := by
      rw [hcat, placeholderBranch_empty cfg pt video hcid]
    have hw := watchHandler_of_failure cfg db v o p video _ _ hparse hfind hres
    exact ⟨hw, by rw [hw]; rfl⟩
  · intro hcid
    have hres : getVideoUrlsForLegacyStatus cfg video = .error .typeError := by
      rw [hcat, placeholderBranch_absent cfg pt video hcid]
    exact watchHandler_of_thrown cfg db v o p video _ hparse hfind hres

/-- C8 witness: the amended theorem applied to a processing-status record
with an empty processing-placeholder CID. -/
theorem placeholder_config_c8_witness :
    watchHandler { PLACEHOLDER_PROCESSING_CID := some "" }
        { legacy := [{ owner := "bob", permlink := "clip", status := some "encoding_ipfs" }],
          embeds := [] }
        (some "bob/clip") =
      .notFound "Placeholder configuration error" (some "encoding_ipfs") :=
  ((placeholder_config_c8 { PLACEHOLDER_PROCESSING_CID := some "" }
      { legacy := [{ owner := "bob", permlink := "clip", status := some "encoding_ipfs" }],
        embeds := [] }
      (some "bob/clip") "bob" "clip"
      { owner := "bob", permlink := "clip", status := some "encoding_ipfs" }
      .processing rfl rfl
      (legacy_resolver_processing _ _ (by decide))).1 rfl).1

/-- A found document matches the search key. -/
theorem findOne_key (o p : String) (l : List VDoc) (d : VDoc)
    (h : findOne o p l = some d) : d.owner = o ∧ d.permlink = p := by
  induction l with
  | nil => simp [findOne] at h
  | cons x xs ih =>
    rw [findOne] at h
    split at h
    · injection h with h
      subst h
      assumption
    · exact ih h

/-- `$inc {views: 1}` always changes the document. -/
theorem incViews_ne (d : VDoc) : incViews d ≠ d := by
  intro h
  have hv := congrArg VDoc.views h
  simp only [incViews] at hv
  cases he : d.views with
  | none => rw [he] at hv; simp at hv
  | some n =>
    rw [he] at hv
    injection hv with hv
    simp only [Option.getD_some] at hv
    omega

/-- `updateOne` against a key-restricted filter rewrites exactly the
first key match found by `findOne` and reports whether it changed. -/
theorem updateOne_spec (o p : String) (filter : VDoc → Bool) (g : VDoc → VDoc)
    (l : List VDoc) (d : VDoc)
    (him : ∀ x, filter x = true → x.owner = o ∧ x.permlink = p)
    (hg : ∀ x, (g x).owner = x.owner ∧ (g x).permlink = x.permlink)
    (hfind : findOne o p l = some d) :
    findOne o p (updateOne filter g l).2 = some (if filter d then g d else d) ∧
    (filter d = true → (updateOne filter g l).1 = if g d = d then 0 else 1) := by
  induction l with
  | nil => simp [findOne] at hfind
  | cons x xs ih =>
    rw [findOne] at hfind
    by_cases hk : x.owner = o ∧ x.permlink = p
    · rw [if_pos hk] at hfind
      have hdx : d = x := (Option.some.inj hfind).symm
      subst hdx
      by_cases hf : filter d = true
      · constructor
        · rw [updateOne, if_pos hf, findOne, if_pos ?_, if_pos hf]
          rw [(hg d).1, (hg d).2]
          exact hk
        · intro _
          rw [updateOne, if_pos hf]
      · have hf' : filter d = false := by
          cases hfb : filter d
          · rfl
          · exact absurd hfb hf
        constructor
        · rw [updateOne, if_neg (by rw [hf']; exact Bool.false_ne_true), hf']
          rw [findOne, if_pos hk]
          simp
        · intro hc
          exact absurd hc hf
    · rw [if_neg hk] at hfind
      have hfx : filter x = false := by
        cases hfb : filter x
        · rfl
        · exact absurd (him x hfb) hk
      obtain ⟨ih1, ih2⟩ := ih hfind
      constructor
      · rw [updateOne, if_neg (by rw [hfx]; exact Bool.false_ne_true), findOne, if_neg hk]
        exact ih1
      · intro hc
        rw [updateOne, if_neg (by rw [hfx]; exact Bool.false_ne_true)]
        exact ih2 hc

/-- `incrementLegacyViews` on a present record: the operation reports
success and the record's `views` is bumped by one. -/
theorem incrementLegacyViews_spec (db : Db) (o p : String) (d : VDoc)
    (h : findLegacyVideo db o p = some d) :
    (incrementLegacyViews db o p).1 = true ∧
    findLegacyVideo (incrementLegacyViews db o p).2 o p = some (incViews d) := by
  have hkey := findOne_key o p db.legacy d h
  have him : ∀ x : VDoc, (decide (x.owner = o ∧ x.permlink = p)) = true →
      x.owner = o ∧ x.permlink = p := fun x hx => of_decide_eq_true hx
  have hg : ∀ x : VDoc, (incViews x).owner = x.owner ∧ (incViews x).permlink = x.permlink :=
    fun x => ⟨rfl, rfl⟩
  obtain ⟨h1, h2⟩ := updateOne_spec o p _ incViews db.legacy d him hg h
  have hfd : decide (d.owner = o ∧ d.permlink = p) = true := decide_eq_true hkey
  constructor
  · have := h2 hfd
    simp only [incrementLegacyViews]
    rw [this, if_neg (incViews_ne d)]
    rfl
  · simp only [incrementLegacyViews, findLegacyVideo]
    rw [h1, if_pos hfd]

/-- C9: `incrementEmbedViews` on a present record first initializes an
absent `views` field to 0 and then increments, so the update lands
(`views` becomes previous value plus one, i.e. 1 when the field was
absent) and success is reported. -/
theorem embed_inc_views_c9 (db : Db) (o p : String) (d : VDoc)
    (h : findEmbedVideo db o p = some d) :
    (incrementEmbedViews db o p).1 = true ∧
    findEmbedVideo (incrementEmbedViews db o p).2 o p =
      some { d with views := some (d.views.getD 0 + 1) } := by
  have hkey := findOne_key o p db.embeds d h
  have him1 : ∀ x : VDoc,
      (decide (x.owner = o ∧ x.permlink = p ∧ x.views = none)) = true →
      x.owner = o ∧ x.permlink = p := fun x hx =>
    ⟨(of_decide_eq_true hx).1, (of_decide_eq_true hx).2.1⟩
  have hg1 : ∀ x : VDoc, (({ x with views := some 0 } : VDoc)).owner = x.owner ∧
      (({ x with views := some 0 } : VDoc)).permlink = x.permlink := fun x => ⟨rfl, rfl⟩
  obtain ⟨hA, _⟩ := updateOne_spec o p _ _ db.embeds d him1 hg1 h
  set d₁ : VDoc :=
    if decide (d.owner = o ∧ d.permlink = p ∧ d.views = none) = true
    then ({ d with views := some 0 } : VDoc) else d with hd₁
  have hd₁key : d₁.owner = o ∧ d₁.permlink = p := by
    rw [hd₁]
    split
    · exact hkey
    · exact hkey
  have him2 : ∀ x : VDoc, (decide (x.owner = o ∧ x.permlink = p)) = true →
      x.owner = o ∧ x.permlink = p := fun x hx => of_decide_eq_true hx
  have hg2 : ∀ x : VDoc, (incViews x).owner = x.owner ∧ (incViews x).permlink = x.permlink :=
    fun x => ⟨rfl, rfl⟩
  obtain ⟨hB, hC⟩ := updateOne_spec o p _ incViews _ d₁ him2 hg2 hA
  have hfd₁ : decide (d₁.owner = o ∧ d₁.permlink = p) = true := decide_eq_true hd₁key
  have hval : incViews d₁ = { d with views := some (d.views.getD 0 + 1) } := by
    rw [hd₁]
    by_cases hv : d.views = none
    · rw [if_pos (decide_eq_true ⟨hkey.1, hkey.2, hv⟩)]
      simp [incViews, hv]
    · rw [if_neg (by
        intro hc
        exact hv (of_decide_eq_true hc).2.2)]
      simp [incViews]
  constructor
  · have := hC hfd₁
    simp only [incrementEmbedViews]
    rw [this, if_neg (incViews_ne d₁)]
    rfl
  · simp only [incrementEmbedViews, findEmbedVideo]
    rw [hB, if_pos hfd₁, hval]

/-- C9 witness: incrementing an embed record lacking a `views` field
lands the counter at 1. -/
theorem embed_inc_views_c9_witness :
    (incrementEmbedViews
      { legacy := [], embeds := [{ owner := "alice", permlink := "vid" }] }
      "alice" "vid").1 = true ∧
    findEmbedVideo (incrementEmbedViews
      { legacy := [], embeds := [{ owner := "alice", permlink := "vid" }] }
      "alice" "vid").2 "alice" "vid" =
      some { owner := "alice", permlink := "vid", views := some 1 } :=
  embed_inc_views_c9
    { legacy := [], embeds := [{ owner := "alice", permlink := "vid" }] }
    "alice" "vid" { owner := "alice", permlink := "vid" } rfl

/-- C10: when the record is countable at the status check but a
concurrent writer removes it before the increment, `POST /api/view`
answers HTTP 200 with `counted:true` and `success:false`, and the
persisted state is untouched — `counted:true` does not imply the counter
changed. -/
theorem view_race_c10 :
    viewHandlerRace viewBodyAB dbPublished { legacy := [], embeds := [] } =
      (.ok false true none, { legacy := [], embeds := [] }) ∧
    (ViewResp.ok false true none).httpStatus = 200 :=
  ⟨rfl, rfl⟩

/-- C3: `POST /api/view` increments the persisted counter (and answers
`counted:true`) exactly when the record's lowercased status is one of
published/scheduled/publish_later/publish_manual; for any other status it
answers HTTP 200 with `counted:false` and a reason string and leaves the
database untouched. -/
theorem view_gate_c3 (db : Db) (o p ty : String) (v : VDoc)
    (hty : ty = "legacy" ∨ ty = "embed")
    (ho : strTruthy (some o) = true) (hp : strTruthy (some p) = true)
    (hv : (if ty = "legacy" then findLegacyVideo db o p else findEmbedVideo db o p)
      = some v) :
    (isReadyStatus (statusLower v.status) = true →
      (viewHandler { owner := some o, permlink := some p, type := some ty } db).1 =
        .ok true true none ∧
      dbViews (viewHandler { owner := some o, permlink := some p, type := some ty } db).2
          ty o p =
        dbViews db ty o p + 1) ∧
    (isReadyStatus (statusLower v.status) = false →
      (viewHandler { owner := some o, permlink := some p, type := some ty } db).1 =
        .ok false false (some "Video not in published state") ∧
      ((viewHandler { owner := some o, permlink := some p, type := some ty } db).1).httpStatus
        = 200 ∧
      (viewHandler { owner := some o, permlink := some p, type := some ty } db).2 = db) := by
  have hts : strTruthy (some ty) = true := by
    rcases hty with h | h <;> rw [h] <;> rfl
  rcases hty with hl | he
  · subst hl
    rw [if_pos rfl] at hv
    have hspec := incrementLegacyViews_spec db o p v hv
    constructor
    · intro hready
      refine ⟨?_, ?_⟩
      · simp [viewHandler, viewHandlerRace, ho, hp, hts, hv, hready, hspec.1]
      · simp [viewHandler, viewHandlerRace, dbViews, ho, hp, hts, hv, hready]
        rw [hspec.2]
        simp [incViews]
    · intro hready
      refine ⟨?_, ?_, ?_⟩ <;>
        simp [viewHandler, viewHandlerRace, ho, hp, hts, hv, hready, ViewResp.httpStatus]
  · subst he
    rw [if_neg (by decide)] at hv
    have hspec := embed_inc_views_c9 db o p v hv
    constructor
    · intro hready
      refine ⟨?_, ?_⟩
      · simp [viewHandler, viewHandlerRace, ho, hp, hts, hv, hready, hspec.1]
      · simp [viewHandler, viewHandlerRace, dbViews, ho, hp, hts, hv, hready]
        rw [hspec.2]
        simp
    · intro hready
      refine ⟨?_, ?_, ?_⟩ <;>
        simp [viewHandler, viewHandlerRace, ho, hp, hts, hv, hready, ViewResp.httpStatus]

/-- C3 witness: a published legacy record is counted (counter 7 → 8); an
`encoding_ipfs` record answers 200/`counted:false` and leaves the
database unchanged. -/
theorem view_gate_c3_witness :
    (viewHandler viewBodyAB dbPublished).1 = .ok true true none ∧
    dbViews (viewHandler viewBodyAB dbPublished).2 "legacy" "a" "b" = 8 ∧
    (viewHandler viewBodyAB dbEncoding).1 =
      .ok false false (some "Video not in published state") := by
  refine ⟨?_, ?_, ?_⟩
  · exact ((view_gate_c3 dbPublished "a" "b" "legacy" legacyDocPublished
      (Or.inl rfl) rfl rfl rfl).1 (by decide)).1
  · have := ((view_gate_c3 dbPublished "a" "b" "legacy" legacyDocPublished
      (Or.inl rfl) rfl rfl rfl).1 (by decide)).2
    have hb : viewBodyAB =
        { owner := some "a", permlink := some "b", type := some "legacy" } := rfl
    rw [hb, this]; rfl
  · exact ((view_gate_c3 dbEncoding "a" "b" "legacy" legacyDocEncoding
      (Or.inl rfl) rfl rfl rfl).2 (by decide)).1

/-- The `waiting` handler never touches the view-count machinery. -/
theorem onWaiting_preserves (env : ClientEnv) (now : Int) (s : PlayerState) :
    (onWaiting env now s).viewCalls = s.viewCalls ∧
    (onWaiting env now s).hasIncrementedView = s.hasIncrementedView ∧
    (onWaiting env now s).currentVideoData = s.currentVideoData := by
  unfold onWaiting
  dsimp only
  (repeat' split) <;> exact ⟨rfl, rfl, rfl⟩

/-- The `error` handler never touches the view-count machinery. -/
theorem onError_preserves (code : Nat) (s : PlayerState) :
    (onError code s).viewCalls = s.viewCalls ∧
    (onError code s).hasIncrementedView = s.hasIncrementedView ∧
    (onError code s).currentVideoData = s.currentVideoData := by
  unfold onError
  (repeat' split) <;> exact ⟨rfl, rfl, rfl⟩

/-- The one-shot `loadedmetadata` seek never touches the view-count
machinery. -/
theorem onLoadedMetadata_preserves (s : PlayerState) :
    (onLoadedMetadata s).viewCalls = s.viewCalls ∧
    (onLoadedMetadata s).hasIncrementedView = s.hasIncrementedView ∧
    (onLoadedMetadata s).currentVideoData = s.currentVideoData := by
  unfold onLoadedMetadata
  (repeat' split) <;> exact ⟨rfl, rfl, rfl⟩

/-- While a video is loaded, a run of events calls `incrementViewCount`
exactly once if the guard is still clear and some `play` occurs, and
never otherwise. -/
theorem run_viewCalls_aux (env : ClientEnv) (evs : List PEvent) (s : PlayerState)
    (hc : s.currentVideoData.isSome = true) :
    (run env s evs).viewCalls =
      s.viewCalls +
        (if s.hasIncrementedView = false ∧ PEvent.play ∈ evs then 1 else 0) := by
  induction evs generalizing s with
  | nil => simp [run]
  | cons e es ih =>
    cases e with
    | play =>
      rw [run]
      by_cases hi : s.hasIncrementedView = true
      · have hstep : step env s .play = { s with stateLabel := "Playing" } := by
          show onPlay s = _
          unfold onPlay
          rw [if_neg]
          rintro ⟨-, hb⟩
          rw [hi] at hb
          cases hb
        rw [hstep, ih { s with stateLabel := "Playing" } hc]
        simp [hi]
      · have hi' : s.hasIncrementedView = false := by
          cases h : s.hasIncrementedView
          · rfl
          · exact absurd h hi
        have hstep : step env s .play =
            { s with stateLabel := "Playing", viewCalls := s.viewCalls + 1,
                     hasIncrementedView := true } := by
          show onPlay s = _
          unfold onPlay
          rw [if_pos ⟨hc, by rw [hi']; rfl⟩]
        rw [hstep,
          ih { s with stateLabel := "Playing", viewCalls := s.viewCalls + 1, hasIncrementedView := true } hc]
        simp [hi']
    | pause =>
      rw [run]
      have hstep : step env s .pause = { s with stateLabel := "Paused" } := rfl
      rw [hstep, ih { s with stateLabel := "Paused" } hc]
      simp
    | waiting now =>
      rw [run]
      obtain ⟨w1, w2, w3⟩ := onWaiting_preserves env now s
      have hstep : step env s (.waiting now) = onWaiting env now s := rfl
      rw [hstep, ih _ (by rw [w3]; exact hc), w1, w2]
      simp
    | error code =>
      rw [run]
      obtain ⟨w1, w2, w3⟩ := onError_preserves code s
      have hstep : step env s (.error code) = onError code s := rfl
      rw [hstep, ih _ (by rw [w3]; exact hc), w1, w2]
      simp
    | loadedmetadata =>
      rw [run]
      obtain ⟨w1, w2, w3⟩ := onLoadedMetadata_preserves s
      have hstep : step env s .loadedmetadata = onLoadedMetadata s := rfl
      rw [hstep, ih _ (by rw [w3]; exact hc), w1, w2]
      simp

/-- C6: after `loadVideoFromData`, the view increment fires exactly once
when the session sees at least one `play` transition, and never again for
that session no matter how many pause/resume cycles follow; loading also
clears the guard so a fresh session can count once. -/
theorem view_once_c6 (env : ClientEnv) (d : VideoData) (s : PlayerState)
    (evs : List PEvent) :
    (run env (loadVideoFromData d s) evs).viewCalls =
      s.viewCalls + (if PEvent.play ∈ evs then 1 else 0) ∧
    (loadVideoFromData d s).hasIncrementedView = false := by
  refine ⟨?_, rfl⟩
  have h := run_viewCalls_aux env evs (loadVideoFromData d s) rfl
  rw [h]
  simp [loadVideoFromData]

/-- The stall-failover mechanism under the legacy payload shape: when
the payload carries the single `videoUrlFallback` field (as the earlier
server revision sent), an untried session increments the counter on
under-window stalls, resets it to 1 otherwise, and on the third
in-window stall switches to that fallback, zeroes the counter and
resumes from the captured position on the next `loadedmetadata`. -/
theorem onWaiting_switch_with_legacy_fallback (env : ClientEnv) (s : PlayerState)
    (d : VideoData) (fb : String) (now : Int)
    (hd : s.currentVideoData = some d) (hfb : d.videoUrlFallback = some fb)
    (ht : s.triedFallback = false) :
    (10000 ≤ now - s.lastStallTime →
      (onWaiting env now s).stallCount = 1 ∧
      (onWaiting env now s).currentSrc = s.currentSrc ∧
      (onWaiting env now s).currentTime = s.currentTime) ∧
    (now - s.lastStallTime < 10000 →
      (s.stallCount + 1 < 3 →
        (onWaiting env now s).stallCount = s.stallCount + 1 ∧
        (onWaiting env now s).currentSrc = s.currentSrc ∧
        (onWaiting env now s).currentTime = s.currentTime) ∧
      (3 ≤ s.stallCount + 1 →
        (onWaiting env now s).stallCount = 0 ∧
        (onWaiting env now s).triedFallback = true ∧
        (onWaiting env now s).currentSrc = fb ∧
        (onWaiting env now s).pendingResume = some s.currentTime ∧
        (onLoadedMetadata (onWaiting env now s)).currentTime = s.currentTime ∧
        (onWaiting env now s).stateLabel = "Switched to backup gateway")) := by
  refine ⟨?_, ?_⟩
  · intro hge
    have c1 : ¬(now - s.lastStallTime < 10000) := by omega
    by_cases c2 : env.isMac = false ∧ s.bandwidth < 5000000 <;>
      simp [onWaiting, c1, c2, hd, hfb, ht]
  · intro hlt
    refine ⟨?_, ?_⟩
    · intro h3
      have h3' : ¬(3 ≤ s.stallCount + 1) := by omega
      by_cases c2 : env.isMac = false ∧ s.bandwidth < 5000000 <;>
        simp [onWaiting, hlt, c2, hd, hfb, ht, h3']
    · intro h3
      by_cases c2 : env.isMac = false ∧ s.bandwidth < 5000000 <;>
        simp [onWaiting, onLoadedMetadata, hlt, c2, hd, hfb, ht, h3]

/-- A concrete instance of the legacy-shape switch: a third rapid stall
at position 42 switches to the fallback and resumes at 42. -/
theorem onWaiting_switch_with_legacy_fallback_check :
    (onWaiting ⟨false⟩ 500 stalledState).currentSrc =
      "https://ipfs.3speak.tv/ipfs/Qm1/manifest.m3u8" ∧
    (onWaiting ⟨false⟩ 500 stalledState).stallCount = 0 ∧
    (onLoadedMetadata (onWaiting ⟨false⟩ 500 stalledState)).currentTime = 42 := by
  have h := ((onWaiting_switch_with_legacy_fallback ⟨false⟩ stalledState videoDataA
      "https://ipfs.3speak.tv/ipfs/Qm1/manifest.m3u8" 500 rfl rfl rfl).2
      (by decide)).2 (by decide)
  exact ⟨h.2.2.1, h.1, h.2.2.2.2.1⟩

/-- One step never clears `triedFallback`. -/
theorem step_triedFallback_mono (env : ClientEnv) (e : PEvent) (s : PlayerState)
    (h : s.triedFallback = true) : (step env s e).triedFallback = true := by
  cases e with
  | play =>
    show (onPlay s).triedFallback = true
    unfold onPlay
    dsimp only
    (repeat' split) <;> exact h
  | pause => exact h
  | waiting now =>
    show (onWaiting env now s).triedFallback = true
    unfold onWaiting
    dsimp only
    (repeat' split) <;> first | rfl | exact h
  | error code =>
    show (onError code s).triedFallback = true
    unfold onError
    (repeat' split) <;> first | rfl | exact h
  | loadedmetadata =>
    show (onLoadedMetadata s).triedFallback = true
    unfold onLoadedMetadata
    (repeat' split) <;> exact h

/-- Once set, `triedFallback` stays set for the rest of the session. -/
theorem run_triedFallback_mono (env : ClientEnv) (evs : List PEvent) (s : PlayerState)
    (h : s.triedFallback = true) : (run env s evs).triedFallback = true := by
  induction evs generalizing s with
  | nil => exact h
  | cons e es ih =>
    rw [run]
    exact ih _ (step_triedFallback_mono env e s h)

/-- Under the legacy payload shape, a stall-triggered failover sets the
shared `triedFallback` guard, so the first decode error that follows is
terminal instead of being recovered — the two mechanisms consume one
guard. -/
theorem onError_after_stall_failover_legacy :
    (run ⟨false⟩ (loadVideoFromData videoDataA initState)
        [.waiting 1000, .waiting 2000, .waiting 3000]).triedFallback = true ∧
    (run ⟨false⟩ (loadVideoFromData videoDataA initState)
        [.waiting 1000, .waiting 2000, .waiting 3000]).stateLabel =
      "Switched to backup gateway" ∧
    (run ⟨false⟩ (loadVideoFromData videoDataA initState)
        [.waiting 1000, .waiting 2000, .waiting 3000, .error 3]).codecErrorShown = true ∧
    (run ⟨false⟩ (loadVideoFromData videoDataA initState)
        [.waiting 1000, .waiting 2000, .waiting 3000, .error 3]).stateLabel =
      "Decode Error - See Console" :=
  ⟨rfl, rfl, rfl, rfl⟩

/-- The decode-error handler under the legacy payload shape: with the
shared guard clear it retries the single fallback once; with the guard
set (by either mechanism) it shows the terminal codec error, and the
guard never clears for the rest of the session. -/
theorem onError_decode_with_legacy_fallback (s : PlayerState) (d : VideoData)
    (fb : String)
    (hd : s.currentVideoData = some d) (hfb : d.videoUrlFallback = some fb) :
    (s.triedFallback = false →
      (onError 3 s).triedFallback = true ∧
      (onError 3 s).currentSrc = fb ∧
      (onError 3 s).codecErrorShown = s.codecErrorShown ∧
      (onError 3 s).stateLabel = "Retrying with different gateway...") ∧
    (s.triedFallback = true →
      (onError 3 s).codecErrorShown = true ∧
      (onError 3 s).stateLabel = "Decode Error - See Console" ∧
      (onError 3 s).currentSrc = s.currentSrc ∧
      (onError 3 s).triedFallback = true) ∧
    (∀ (env : ClientEnv) (evs : List PEvent),
      s.triedFallback = true → (run env s evs).triedFallback = true) := by
  refine ⟨?_, ?_, ?_⟩
  · intro ht
    simp [onError, hd, hfb, ht]
  · intro ht
    simp [onError, hd, hfb, ht]
  · intro env evs ht
    exact run_triedFallback_mono env evs s ht

/-- Concrete instances of the legacy-shape decode handling for both
guard values. -/
theorem onError_decode_with_legacy_fallback_check :
    (onError 3 (loadVideoFromData videoDataA initState)).stateLabel =
      "Retrying with different gateway..." ∧
    (onError 3 { stalledState with triedFallback := true }).codecErrorShown = true := by
  have h1 := (onError_decode_with_legacy_fallback (loadVideoFromData videoDataA initState)
    videoDataA "https://ipfs.3speak.tv/ipfs/Qm1/manifest.m3u8" rfl rfl).1 rfl
  have h2 := ((onError_decode_with_legacy_fallback
    { stalledState with triedFallback := true } videoDataA
    "https://ipfs.3speak.tv/ipfs/Qm1/manifest.m3u8" rfl rfl).2).1 rfl
  exact ⟨h1.2.2.2, h2.1⟩

/-- C4 (code bug): the stall failover never fires in the program as
wired.  The `waiting` handler guards the switch on the legacy
`videoUrlFallback` payload field, which the current API responses never
carry, so for every server-resolved session the handler leaves the
source, the fallback guard, the pending resume seek and the state label
untouched; concretely, three rapid stalls on a freshly loaded embed
payload drive the counter to 3 with no switch, no guard, no resume seek
and an unchanged label. -/
theorem stall_failover_dead_c4 (env : ClientEnv) (now : Int) (s : PlayerState)
    (o p ty : String) (urls : VideoUrls)
    (hd : s.currentVideoData = some (payloadOfResponse o p ty urls)) :
    ((onWaiting env now s).currentSrc = s.currentSrc ∧
     (onWaiting env now s).triedFallback = s.triedFallback ∧
     (onWaiting env now s).pendingResume = s.pendingResume ∧
     (onWaiting env now s).stateLabel = s.stateLabel) ∧
    (stalledApiSession.stallCount = 3 ∧
     stalledApiSession.currentSrc = loadedApiSession.currentSrc ∧
     stalledApiSession.triedFallback = false ∧
     stalledApiSession.pendingResume = none ∧
     stalledApiSession.stateLabel = "Ready") := by
  constructor
  · by_cases c1 : now - s.lastStallTime < 10000 <;>
      by_cases c2 : env.isMac = false ∧ s.bandwidth < 5000000 <;>
        simp [onWaiting, c1, c2, hd, payloadOfResponse]
  · exact ⟨rfl, rfl, rfl, rfl, rfl⟩

/-- C4 witness: the dead-failover theorem at a freshly loaded
current-API session and an in-window stall. -/
theorem stall_failover_dead_c4_witness :
    (onWaiting ⟨false⟩ 1000 loadedApiSession).currentSrc =
      loadedApiSession.currentSrc ∧
    (onWaiting ⟨false⟩ 1000 loadedApiSession).triedFallback =
      loadedApiSession.triedFallback ∧
    (onWaiting ⟨false⟩ 1000 loadedApiSession).stateLabel =
      loadedApiSession.stateLabel := by
  have h := stall_failover_dead_c4 ⟨false⟩ 1000 loadedApiSession "alice" "vid" "embed"
    (getVideoUrls "ipfs://QmManifest/manifest.m3u8") rfl
  exact ⟨h.1.1, h.1.2.1, h.1.2.2.2⟩

/-- C5 counterexample: on a session loaded from the current API response
shape, the FIRST decode error of the session — with the `triedFallback`
guard still clear — goes straight to the terminal codec-error state with
no advancement to another candidate, refuting both the claimed
once-per-session recovery and its independence from the guard. -/
theorem decode_terminal_c5_cex :
    loadedApiSession.triedFallback = false ∧
    (onError 3 loadedApiSession).codecErrorShown = true ∧
    (onError 3 loadedApiSession).stateLabel = "Decode Error - See Console" ∧
    (onError 3 loadedApiSession).currentSrc = loadedApiSession.currentSrc ∧
    (onError 3 loadedApiSession).triedFallback = false :=
  ⟨rfl, rfl, rfl, rfl, rfl⟩

/-- C5 (amended): decode-class errors are never recovered in the program
as wired: the error handler's retry guards on the legacy
`videoUrlFallback` payload field, which the current API never sends, so
on every server-resolved session the first decode error transitions
directly to the terminal errored state with the codec/corruption
classification, regardless of the `triedFallback` guard, with no
advancement to another chain candidate. -/
theorem decode_terminal_c5 (s : PlayerState) (o p ty : String) (urls : VideoUrls)
    (hd : s.currentVideoData = some (payloadOfResponse o p ty urls)) :
    (onError 3 s).codecErrorShown = true ∧
    (onError 3 s).stateLabel = "Decode Error - See Console" ∧
    (onError 3 s).currentSrc = s.currentSrc ∧
    (onError 3 s).triedFallback = s.triedFallback := by
  simp [onError, hd, payloadOfResponse]

/-- C5 witness: the amended theorem applied with the guard clear and with
the guard set — terminal either way. -/
theorem decode_terminal_c5_witness :
    (onError 3 loadedApiSession).codecErrorShown = true ∧
    (onError 3 { loadedApiSession with triedFallback := true }).codecErrorShown = true := by
  have h1 := decode_terminal_c5 loadedApiSession "alice" "vid" "embed"
    (getVideoUrls "ipfs://QmManifest/manifest.m3u8") rfl
  have h2 := decode_terminal_c5 { loadedApiSession with triedFallback := true }
    "alice" "vid" "embed" (getVideoUrls "ipfs://QmManifest/manifest.m3u8") rfl
  exact ⟨h1.1, h2.1⟩

end Snapie
